import Mathlib

/-
Verification development for the platform-engineering demo application.

The embedding models, from the repository source:
  - the Prompt Formatter (generatePromptForDemo in the DemoRunner component);
  - the Run Store (getLocalRuns / saveLocalRun / saveRun / loadPreviousRuns in
    the DemoRunner component), with the remote table and the on-device list as
    explicit state and with remote success or failure as an explicit input;
  - the Model Gateway (runDemo in the DemoRunner component), with the HTTP
    reply as an explicit input;
  - the three serverless relay handlers (supabase/functions/multi-agent,
    supabase/functions/release-readiness, and the workflow-diagnostic
    function), with environment variables and model replies as explicit inputs.

Conventions: JavaScript values flowing through the code are modelled by the
`Json` inductive; `undefined` fields are `Option.none`; timestamps (ISO-8601
strings produced by new Date, compared chronologically) are modelled as `Nat`
milliseconds; the JSON round trip through localStorage (stringify then parse)
is identified with the structured value it encodes.
-/

-- ## JavaScript value model

inductive Json where
  | null
  | bool (b : Bool)
  | num (n : Int)
  | str (s : String)
  | arr (xs : List Json)
  | obj (kvs : List (String × Json))

/-- JavaScript truthiness of a value (undefined is modelled as `Json.null`). -/
def jsTruthy : Json → Bool
  | .null => false
  | .bool b => b
  | .num n => n != 0
  | .str s => s != ""
  | .arr _ => true
  | .obj _ => true

/-- The JavaScript expression `v || d` on values. -/
def jsOr (v d : Json) : Json :=
  if jsTruthy v then v else d

/-- The JavaScript expression `v || d` on an optional string
(absent or empty falls back to the default). -/
def jsOrStr (v : Option String) (d : String) : String :=
  match v with
  | some s => if s == "" then d else s
  | none => d

/-- Truthiness of an optional string field (`undefined` and `""` are falsy). -/
def optStrTruthy (v : Option String) : Bool :=
  match v with
  | some s => s != ""
  | none => false

/-- Template-literal interpolation of a possibly-undefined string field:
JavaScript renders `undefined` as the text "undefined". -/
def interpolateOpt (v : Option String) : String :=
  match v with
  | some s => s
  | none => "undefined"

/-- Object field access; `none` models `undefined`. -/
def Json.getField : Json → String → Option Json
  | .obj kvs, k => kvs.lookup k
  | _, _ => none

def Json.isArr : Json → Bool
  | .arr _ => true
  | _ => false

/-- Whether a string contains a pattern, on character lists:
models JavaScript String.includes. -/
def startsWithChars : List Char → List Char → Bool
  | _, [] => true
  | [], _ :: _ => false
  | c :: s, p :: ps => c == p && startsWithChars s ps

def containsChars (pat : List Char) : List Char → Bool
  | [] => startsWithChars [] pat
  | c :: rest => startsWithChars (c :: rest) pat || containsChars pat rest

/-- Models `s.includes(pat)` from JavaScript. -/
def strIncludes (s pat : String) : Bool :=
  containsChars pat.data s.data

-- ## JSON.stringify(v, null, 2): model of the JavaScript runtime builtin

def escapeJsonChar (c : Char) : String :=
  if c == '"' then "\\\""
  else if c == '\\' then "\\\\"
  else if c == '\n' then "\\n"
  else if c == '\t' then "\\t"
  else if c == '\r' then "\\r"
  else String.singleton c

def escapeJson (s : String) : String :=
  s.data.foldl (fun acc c => acc ++ escapeJsonChar c) ""

def spaces (n : Nat) : String :=
  String.mk (List.replicate n ' ')

mutual
def stringifyAux : Nat → Json → String
  | _, .null => "null"
  | _, .bool true => "true"
  | _, .bool false => "false"
  | _, .num n => toString n
  | _, .str s => "\"" ++ escapeJson s ++ "\""
  | ind, .arr xs =>
      match xs with
      | [] => "[]"
      | _ :: _ => "[\n" ++ stringifyArr (ind + 2) xs ++ "\n" ++ spaces ind ++ "]"
  | ind, .obj kvs =>
      match kvs with
      | [] => "\x7b\x7d"
      | _ :: _ => "\x7b\n" ++ stringifyObj (ind + 2) kvs ++ "\n" ++ spaces ind ++ "\x7d"

def stringifyArr : Nat → List Json → String
  | _, [] => ""
  | ind, [x] => spaces ind ++ stringifyAux ind x
  | ind, x :: y :: rest =>
      spaces ind ++ stringifyAux ind x ++ ",\n" ++ stringifyArr ind (y :: rest)

def stringifyObj : Nat → List (String × Json) → String
  | _, [] => ""
  | ind, [(k, v)] => spaces ind ++ "\"" ++ escapeJson k ++ "\": " ++ stringifyAux ind v
  | ind, (k, v) :: y :: rest =>
      spaces ind ++ "\"" ++ escapeJson k ++ "\": " ++ stringifyAux ind v ++ ",\n" ++
        stringifyObj ind (y :: rest)
end

/-- Model of `JSON.stringify(v, null, 2)`. -/
def Json.stringify (j : Json) : String :=
  stringifyAux 0 j

/-- `JSON.stringify` of a possibly-undefined field interpolated into a
template literal: `JSON.stringify(undefined, null, 2)` is `undefined`,
which the template renders as "undefined". -/
def stringifyOpt (v : Option Json) : String :=
  match v with
  | none => "undefined"
  | some j => Json.stringify j

-- ## Payload Builder output and Prompt Formatter (DemoRunner component)

/-- The demo payload object; each demo reads the fields shown here, and an
absent field is `none` (JavaScript `undefined`). -/
structure Payload where
  errorLog : Option String
  workflowContext : Option String
  qualityMetrics : Option Json
  infrastructureState : Option Json
  developerContext : Option Json
  query : Option String

/-- generatePromptForDemo from the DemoRunner component: one fixed template
per demo identifier, interpolating payload fields verbatim; unknown
identifiers produce the empty string. -/
def generatePromptForDemo (demoId : String) (payload : Payload) : String :=
  match demoId with
  | "workflow-diagnostic" =>
      "You are a platform engineering diagnostic agent powered by Claude. \n    \nA CI/CD workflow has failed with the following error:\n\n" ++
        (interpolateOpt payload.errorLog ++
          ("\n\nWorkflow Context:\n" ++
            (interpolateOpt payload.workflowContext ++
              "\n\nPlease provide:\n1. Root cause analysis\n2. Step-by-step fix recommendations\n3. Prevention strategies for future occurrences\n\nFormat your response as structured analysis with clear sections. Do not mention or reference any AI model names like Gemini in your response.")))
  | "release-readiness" =>
      "You are a release readiness evaluation agent powered by Claude.\n\nAnalyze the following quality metrics and provide a release decision:\n\n" ++
        (stringifyOpt payload.qualityMetrics ++
          "\n\nQuality Gates:\n- Test Coverage: Minimum 80% (Critical)\n- Performance: Response time < 200ms (High)\n- Security Scan: No critical vulnerabilities (Critical)\n- Code Quality: Maintainability score > 70 (Medium)\n\nProvide:\n1. Overall release recommendation (Deploy/Rollback/Hold)\n2. Confidence score (0-100%)\n3. Detailed rationale for each quality gate\n4. Risk assessment and mitigation strategies\n\nBe specific and actionable. Do not mention or reference any AI model names like Gemini in your response.")
  | "multi-agent" =>
      "You are coordinating multiple agents (powered by Claude) to balance cost and reliability.\n\nInfrastructure State:\n" ++
        (stringifyOpt payload.infrastructureState ++
          "\n\nProvide a comprehensive analysis covering:\n1. Cost optimization opportunities\n2. Reliability impact assessment\n3. Balanced recommendations\n4. Implementation plan\n\nDo not mention or reference any AI model names like Gemini in your response.")
  | "developer-portal" =>
      "You are an intelligent developer portal agent powered by Claude.\n\nDeveloper Context:\n" ++
        (stringifyOpt payload.developerContext ++
          ("\n\nDeveloper Query: " ++
            (interpolateOpt payload.query ++
              "\n\nProvide:\n1. Clear, actionable answer\n2. Code examples if applicable\n3. Next steps as a task list\n\nDo not mention or reference any AI model names like Gemini in your response.")))
  | _ => ""

-- ## Run Store (DemoRunner component)

def CLAUDE_MODEL : String := "claude-3-haiku-20240307"

/-- The output_data object built by runDemo and by the relay callers. -/
structure OutputData where
  result : Json
  model_used : String
  timestamp : Nat

/-- The persisted run record (the demo_runs row / local history entry). -/
structure DemoRun where
  id : String
  demo_id : String
  demo_title : String
  input_payload : Payload
  output_data : OutputData
  execution_mode : String
  model_used : String
  created_at : Nat

/-- The localStorage slot under the key demoRuns:demoId, as seen through
JSON.parse: absent key, a string JSON.parse throws on, or a parsed value. -/
inductive StorageSlot where
  | absent
  | malformed
  | value (j : Json)

/-- getLocalRuns from the DemoRunner component: read the slot, return [] when
the key is absent, when JSON.parse throws, or when the parsed value is not an
array; otherwise return the array elements (uninspected, as in the source). -/
def getLocalRuns : StorageSlot → List Json
  | .absent => []
  | .malformed => []
  | .value (.arr xs) => xs
  | .value _ => []

/-- Run Store state: the remote demo_runs table (all rows) and the decoded
on-device list stored under this demo's localStorage key. -/
structure StoreState where
  remote : List DemoRun
  localRuns : List DemoRun

/-- saveLocalRun from the DemoRunner component: prepend and keep the newest
20 entries (the UI state update is presentation and is elided). -/
def saveLocalRun (st : StoreState) (run : DemoRun) : StoreState :=
  { st with localRuns := (run :: st.localRuns).take 20 }

/-- The local fallback record saveRun builds (crypto.randomUUID and
new Date().toISOString() are the uuid and now inputs). -/
def localRunRecord (demoId demoTitle : String) (outputData : OutputData)
    (payload : Payload) (mode uuid : String) (now : Nat) : DemoRun :=
  { id := uuid
    demo_id := demoId
    demo_title := demoTitle
    input_payload := payload
    output_data := outputData
    execution_mode := mode
    model_used := if outputData.model_used == "" then CLAUDE_MODEL else outputData.model_used
    created_at := now }

/-- saveRun from the DemoRunner component. `supabaseConfigured` is the
configuration-presence check; `insertOk` is whether the remote insert
succeeds; on remote success the server assigns id and created_at
(`serverId`, `serverNow`). Remote failure and the thrown-exception path both
fall back to saveLocalRun with the same record. -/
def saveRun (supabaseConfigured insertOk : Bool) (st : StoreState)
    (demoId demoTitle : String) (outputData : OutputData) (payload : Payload)
    (mode uuid : String) (now serverNow : Nat) (serverId : String) : StoreState :=
  if !supabaseConfigured then
    saveLocalRun st (localRunRecord demoId demoTitle outputData payload mode uuid now)
  else if !insertOk then
    saveLocalRun st (localRunRecord demoId demoTitle outputData payload mode uuid now)
  else
    { st with remote := st.remote ++
        [{ id := serverId
           demo_id := demoId
           demo_title := demoTitle
           input_payload := payload
           output_data := outputData
           execution_mode := mode
           model_used := if outputData.model_used == "" then CLAUDE_MODEL else outputData.model_used
           created_at := serverNow }] }

/-- Ordering used by the remote query: created_at descending. -/
def createdDescRel (a b : DemoRun) : Prop :=
  b.created_at ≤ a.created_at

instance : DecidableRel createdDescRel :=
  fun a b => Nat.decLe b.created_at a.created_at

instance : IsTotal DemoRun createdDescRel :=
  ⟨fun a b => Nat.le_total b.created_at a.created_at⟩

instance : IsTrans DemoRun createdDescRel :=
  ⟨fun _ _ _ h1 h2 => Nat.le_trans h2 h1⟩

/-- The remote query in loadPreviousRuns: filter by demo_id, order by
created_at descending (server-side sort), limit 20. -/
def listRemoteRuns (table : List DemoRun) (demoId : String) : List DemoRun :=
  ((table.filter (fun r => r.demo_id == demoId)).insertionSort createdDescRel).take 20

/-- loadPreviousRuns from the DemoRunner component, as the list it displays:
unconfigured reads the local list; a configured store queries remotely and
falls back to getLocalRuns on a query error (`queryOk` is whether the remote
select succeeds). -/
def loadPreviousRuns (supabaseConfigured queryOk : Bool) (st : StoreState)
    (demoId : String) : List DemoRun :=
  if !supabaseConfigured then st.localRuns
  else if queryOk then listRemoteRuns st.remote demoId
  else st.localRuns

/-- All records the Run Store currently holds, remote and on-device. -/
def storedRecords (st : StoreState) : List DemoRun :=
  st.remote ++ st.localRuns

-- ## Model Gateway (runDemo in the DemoRunner component)

/-- The outcome of the fetch to the chat-completion endpoint: a 2xx reply
with a JSON body, a non-2xx status with its body text, or a thrown
network/parse error with its message. -/
inductive FetchResult where
  | success (body : Json)
  | httpError (status : Nat) (text : String)
  | networkError (msg : String)

/-- The terminal outcome runDemo reports for one invocation. -/
inductive RunOutcome where
  | noApiKey
  | rateLimited
  | invalidKey (text : String)
  | apiError (status : Nat) (text : String)
  | networkUnreachable
  | unexpected (msg : String)
  | completed (result : Json)

/-- The extraction `data.content?.[0]?.text` (undefined modelled as null). -/
def contentText (j : Json) : Json :=
  match j.getField "content" with
  | some (.arr (first :: _)) => (first.getField "text").getD .null
  | _ => .null

/-- runDemo from the DemoRunner component: guard on the API key, perform the
fetch (its outcome is the `resp` input), classify failures (429, 401, other
non-2xx, thrown network errors) without touching the Run Store, and on
success extract the reply text, build output_data, and hand it to saveRun
with execution mode "local". Console, toast and React state updates are
presentation and are elided. -/
def runDemo (supabaseConfigured insertOk : Bool) (st : StoreState) (apiKey : String)
    (demoId demoTitle : String) (payload : Payload) (resp : FetchResult)
    (uuid : String) (now serverNow : Nat) (serverId : String) :
    StoreState × RunOutcome :=
  if apiKey == "" then (st, .noApiKey)
  else
    match resp with
    | .httpError status text =>
        if status == 429 then (st, .rateLimited)
        else if status == 401 then (st, .invalidKey text)
        else (st, .apiError status text)
    | .networkError msg =>
        if strIncludes msg "Failed to fetch" then (st, .networkUnreachable)
        else (st, .unexpected msg)
    | .success body =>
        let result := jsOr (contentText body) (.str "No response generated")
        let outputData : OutputData :=
          { result := result, model_used := CLAUDE_MODEL, timestamp := now }
        (saveRun supabaseConfigured insertOk st demoId demoTitle outputData payload
          "local" uuid now serverNow serverId,
         .completed result)

-- ## Serverless relay functions (Access Gate + model chain)

/-- Environment variables the relay handlers read; `none` is unset. -/
structure RelayEnv where
  demoAccessPassword : Option String
  anthropicApiKey : Option String

/-- The password guard shared by the three handlers:
`if (!accessPassword || accessPassword !== DEMO_ACCESS_PASSWORD)` rejects.
An absent or empty supplied password is falsy; comparison against an unset
environment variable never succeeds. -/
def passwordOk (supplied cfg : Option String) : Bool :=
  match supplied with
  | none => false
  | some s =>
      s != "" &&
        (match cfg with
         | some c => s == c
         | none => false)

/-- The guard `if (!ANTHROPIC_API_KEY)`. -/
def envKeyOk (k : Option String) : Bool :=
  match k with
  | some s => s != ""
  | none => false

/-- A relay response body: an error object, or the demo-specific success
object each function serializes. -/
inductive RelayBody where
  | errMsg (msg : String)
  | multiAgentSuccess (cost_analysis reliability_assessment final_recommendation : String)
      (timestamp : Nat) (model_used : String)
  | diagnosticSuccess (diagnosis : Json) (status : String) (model_used : String)
      (timestamp : Nat)
  | evaluationSuccess (evaluation : Json) (timestamp : Nat) (model_used : String)

/-- A relay handler result: HTTP status, body, and the prompts of the model
calls it issued, in order. -/
structure RelayResult where
  status : Nat
  body : RelayBody
  modelCalls : List String

/-- Outcome of one provider call as the multi-agent callClaude observes it:
a 2xx body whose extracted text is `s`, or a non-2xx status. -/
inductive ClaudeOutcome where
  | text (s : String)
  | httpFail (status : Nat)

/-- callClaude from the multi-agent function: on a non-2xx reply it throws
an Error whose message carries the status. -/
def callClaude (r : ClaudeOutcome) : Except String String :=
  match r with
  | .text s => .ok s
  | .httpFail status => .error ("Claude API error: " ++ toString status)

/-- The multi-agent catch block: classify a thrown message by substring. -/
def catchClaudeError (msg : String) : Nat × String :=
  if strIncludes msg "429" then (429, "Rate limit exceeded. Please try again later.")
  else if strIncludes msg "401" then (401, "Invalid API key. Please check your Anthropic API key.")
  else (500, msg)

/-- The cost-optimizer prompt of the multi-agent function. -/
def costPrompt (infraJson : String) : String :=
  "You are a cost optimization agent.\n        \nAnalyze this infrastructure state and provide cost optimization recommendations:\n\n" ++
    (infraJson ++
      "\n\nFocus on:\n- Oversized resources\n- Idle resources\n- Better pricing models\n- Regional cost differences\n\nBe specific about potential savings in dollars per month.")

/-- The incident-responder prompt of the multi-agent function; it embeds the
cost recommendations and the infrastructure JSON. -/
def reliabilityPrompt (costRecommendations infraJson : String) : String :=
  "You are an incident response agent focused on system reliability.\n\nEvaluate the reliability impact of these proposed changes:\n\n" ++
    (costRecommendations ++
      ("\n\nCurrent system state:\n" ++
        (infraJson ++
          "\n\nConsider:\n- Service availability impact\n- Potential failure modes\n- Rollback complexity\n- Blast radius\n\nAssess each proposed change and categorize risk as LOW, MEDIUM, or HIGH.")))

/-- The synthesis prompt of the multi-agent function; it embeds both prior
agent outputs. -/
def synthesisPrompt (costRecommendations reliabilityAssessment : String) : String :=
  "Synthesize these agent recommendations into a balanced final recommendation:\n\nCost Optimizer Analysis:\n" ++
    (costRecommendations ++
      ("\n\nIncident Responder Assessment:\n" ++
        (reliabilityAssessment ++
          "\n\nProvide:\n1. Which optimizations to APPROVE, which to hold, and which to reject\n2. Expected monthly savings\n3. Phased implementation plan\n4. Key metrics to monitor\n\nBalance cost savings with reliability requirements.")))

/-- The parsed request body of the multi-agent function. -/
structure MultiAgentReq where
  infrastructureState : Option Json
  accessPassword : Option String

/-- The multi-agent handler: password gate, payload validation, key check,
then three sequential callClaude invocations (cost, reliability, synthesis),
each feeding the next prompt; any throw is classified by the catch block and
returned immediately. `oracle n` is the provider reply to the n-th call. -/
def multiAgent (env : RelayEnv) (req : MultiAgentReq) (oracle : Nat → ClaudeOutcome)
    (now : Nat) : RelayResult :=
  if !passwordOk req.accessPassword env.demoAccessPassword then
    { status := 401
      body := .errMsg "Invalid demo access password. Please enter the correct password."
      modelCalls := [] }
  else if !jsTruthy (req.infrastructureState.getD .null) then
    { status := 400, body := .errMsg "infrastructureState is required", modelCalls := [] }
  else if !envKeyOk env.anthropicApiKey then
    { status := 500, body := .errMsg "Claude API key not configured", modelCalls := [] }
  else
    let infraJson := stringifyOpt req.infrastructureState
    let p1 := costPrompt infraJson
    match callClaude (oracle 0) with
    | .error msg =>
        { status := (catchClaudeError msg).1, body := .errMsg (catchClaudeError msg).2
          modelCalls := [p1] }
    | .ok costRecommendations =>
        let p2 := reliabilityPrompt costRecommendations infraJson
        match callClaude (oracle 1) with
        | .error msg =>
            { status := (catchClaudeError msg).1, body := .errMsg (catchClaudeError msg).2
              modelCalls := [p1, p2] }
        | .ok reliabilityAssessment =>
            let p3 := synthesisPrompt costRecommendations reliabilityAssessment
            match callClaude (oracle 2) with
            | .error msg =>
                { status := (catchClaudeError msg).1, body := .errMsg (catchClaudeError msg).2
                  modelCalls := [p1, p2, p3] }
            | .ok finalRecommendation =>
                { status := 200
                  body := .multiAgentSuccess costRecommendations reliabilityAssessment
                    finalRecommendation now "claude-sonnet-4-20250514"
                  modelCalls := [p1, p2, p3] }

/-- The parsed request body of the workflow-diagnostic function. -/
structure WorkflowDiagnosticReq where
  errorLog : Option String
  workflowContext : Option String
  accessPassword : Option String

/-- The prompt of the workflow-diagnostic function. -/
def wdRelayPrompt (errorLog workflowContext : String) : String :=
  "You are a platform engineering diagnostic agent. \n    \nA CI/CD workflow has failed with the following error:\n\n" ++
    (errorLog ++
      ("\n\nWorkflow Context:\n" ++
        (workflowContext ++
          "\n\nPlease provide:\n1. Root cause analysis\n2. Step-by-step fix recommendations\n3. Prevention strategies for future occurrences\n\nFormat your response as structured analysis with clear sections.")))

/-- The workflow-diagnostic handler: password gate, errorLog validation, key
check, one provider call with status classification; a thrown fetch error
reaches the catch block as a 500 with the error message. -/
def workflowDiagnostic (env : RelayEnv) (req : WorkflowDiagnosticReq)
    (resp : FetchResult) (now : Nat) : RelayResult :=
  if !passwordOk req.accessPassword env.demoAccessPassword then
    { status := 401
      body := .errMsg "Invalid demo access password. Please enter the correct password."
      modelCalls := [] }
  else if !optStrTruthy req.errorLog then
    { status := 400, body := .errMsg "errorLog is required", modelCalls := [] }
  else if !envKeyOk env.anthropicApiKey then
    { status := 500, body := .errMsg "Claude API key not configured", modelCalls := [] }
  else
    let prompt := wdRelayPrompt (interpolateOpt req.errorLog)
      (jsOrStr req.workflowContext "No additional context provided")
    match resp with
    | .httpError status _ =>
        if status == 429 then
          { status := 429, body := .errMsg "Rate limit exceeded. Please try again later."
            modelCalls := [prompt] }
        else if status == 401 then
          { status := 401, body := .errMsg "Invalid API key. Please check your Anthropic API key."
            modelCalls := [prompt] }
        else
          { status := 500, body := .errMsg "Claude API error", modelCalls := [prompt] }
    | .networkError msg =>
        { status := 500, body := .errMsg msg, modelCalls := [prompt] }
    | .success body =>
        { status := 200
          body := .diagnosticSuccess (jsOr (contentText body) (.str "No diagnosis generated"))
            "analyzed" CLAUDE_MODEL now
          modelCalls := [prompt] }

/-- The parsed request body of the release-readiness function. -/
structure ReleaseReadinessReq where
  qualityMetrics : Option Json
  accessPassword : Option String

/-- The prompt of the release-readiness function. -/
def rrRelayPrompt (metricsJson : String) : String :=
  "You are a release readiness evaluation agent.\n\nAnalyze the following quality metrics and provide a release decision:\n\n" ++
    (metricsJson ++
      "\n\nQuality Gates:\n- Test Coverage: Minimum 80% (Critical)\n- Performance: Response time < 200ms (High)\n- Security Scan: No critical vulnerabilities (Critical)\n- Code Quality: Maintainability score > 70 (Medium)\n\nProvide:\n1. Overall release recommendation (Deploy/Rollback/Hold)\n2. Confidence score (0-100%)\n3. Detailed rationale for each quality gate\n4. Risk assessment and mitigation strategies\n\nBe specific and actionable.")

/-- The release-readiness handler: password gate, qualityMetrics validation,
key check, one provider call with status classification. -/
def releaseReadiness (env : RelayEnv) (req : ReleaseReadinessReq)
    (resp : FetchResult) (now : Nat) : RelayResult :=
  if !passwordOk req.accessPassword env.demoAccessPassword then
    { status := 401
      body := .errMsg "Invalid demo access password. Please enter the correct password."
      modelCalls := [] }
  else if !jsTruthy (req.qualityMetrics.getD .null) then
    { status := 400, body := .errMsg "qualityMetrics is required", modelCalls := [] }
  else if !envKeyOk env.anthropicApiKey then
    { status := 500, body := .errMsg "Claude API key not configured", modelCalls := [] }
  else
    let prompt := rrRelayPrompt (stringifyOpt req.qualityMetrics)
    match resp with
    | .httpError status _ =>
        if status == 429 then
          { status := 429, body := .errMsg "Rate limit exceeded. Please try again later."
            modelCalls := [prompt] }
        else if status == 401 then
          { status := 401, body := .errMsg "Invalid API key. Please check your Anthropic API key."
            modelCalls := [prompt] }
        else
          { status := 500, body := .errMsg "Claude API error", modelCalls := [prompt] }
    | .networkError msg =>
        { status := 500, body := .errMsg msg, modelCalls := [prompt] }
    | .success body =>
        { status := 200
          body := .evaluationSuccess (jsOr (contentText body) (.str "No evaluation generated"))
            now CLAUDE_MODEL
          modelCalls := [prompt] }

-- ## Predicates and sample values used by the verification

/-- `pat` occurs verbatim as a contiguous substring of `s`. -/
def StrContains (s pat : String) : Prop :=
  ∃ a b, s = a ++ (pat ++ b)

/-- Sorted by created_at descending (non-strictly). -/
def SortedDescRuns (l : List DemoRun) : Prop :=
  l.Pairwise createdDescRel

/-- Sorted by created_at strictly descending. -/
def StrictSortedDescRuns (l : List DemoRun) : Prop :=
  l.Pairwise (fun a b => b.created_at < a.created_at)

/-- A sequence of saveLocalRun calls, applied in order. -/
def saveLocalSeq (st : StoreState) (runs : List DemoRun) : StoreState :=
  runs.foldl saveLocalRun st

/-- A concrete workflow-diagnostic payload (scenario A of the spec). -/
def samplePayload : Payload :=
  { errorLog := some "BucketAlreadyExists: the requested bucket name is not available"
    workflowContext := some "Repository: infra/terraform, branch main, apply stage"
    qualityMetrics := none
    infrastructureState := none
    developerContext := none
    query := none }

/-- A concrete output_data value. -/
def sampleOutput : OutputData :=
  { result := .str "Root cause: duplicate bucket name", model_used := CLAUDE_MODEL, timestamp := 0 }

-- ## Helper lemmas

theorem strContains_right (a pat b : String) : StrContains (a ++ (pat ++ b)) pat :=
  ⟨a, b, rfl⟩

theorem strContains_prepend (t : String) {s pat : String} (h : StrContains s pat) :
    StrContains (t ++ s) pat := by
  obtain ⟨a, b, hab⟩ := h
  exact ⟨t ++ a, b, by rw [hab]; exact (String.append_assoc t a (pat ++ b)).symm⟩

theorem passwordOk_eq_false (ap cfg : Option String) (h : ap = none ∨ ap ≠ cfg) :
    passwordOk ap cfg = false := by
  cases ap with
  | none => rfl
  | some s =>
      rcases h with h | h
      · exact absurd h (by simp)
      · cases cfg with
        | none => simp [passwordOk]
        | some c =>
            have hne : s ≠ c := fun hc => h (by rw [hc])
            have hbeq : (s == c) = false := beq_eq_false_iff_ne.mpr hne
            simp [passwordOk, hbeq]

theorem passwordOk_cfg_none (ap : Option String) : passwordOk ap none = false := by
  cases ap <;> simp [passwordOk]

theorem length_saveLocalSeq_le (runs : List DemoRun) (st : StoreState)
    (h : st.localRuns.length ≤ 20) :
    (saveLocalSeq st runs).localRuns.length ≤ 20 := by
  induction runs generalizing st with
  | nil => exact h
  | cons r rs ih =>
      exact ih (saveLocalRun st r) (List.length_take_le 20 (r :: st.localRuns))

theorem sorted_saveLocalSeq (runs : List DemoRun) (st : StoreState)
    (hruns : runs.Pairwise (fun a b => a.created_at ≤ b.created_at))
    (hst : SortedDescRuns st.localRuns)
    (hbound : ∀ x ∈ st.localRuns, ∀ r ∈ runs, x.created_at ≤ r.created_at) :
    SortedDescRuns (saveLocalSeq st runs).localRuns := by
  induction runs generalizing st with
  | nil => exact hst
  | cons r rs ih =>
      have hr : ∀ r' ∈ rs, r.created_at ≤ r'.created_at :=
        (List.pairwise_cons.mp hruns).1
      have hrs : rs.Pairwise (fun a b => a.created_at ≤ b.created_at) :=
        (List.pairwise_cons.mp hruns).2
      refine ih (saveLocalRun st r) hrs ?_ ?_
      · have hcons : SortedDescRuns (r :: st.localRuns) :=
          List.pairwise_cons.mpr ⟨fun x hx => hbound x hx r (List.mem_cons_self r rs), hst⟩
        exact List.Pairwise.sublist (List.take_sublist 20 (r :: st.localRuns)) hcons
      · intro x hx r' hr'
        have hx' : x ∈ r :: st.localRuns := List.take_subset 20 (r :: st.localRuns) hx
        rcases List.mem_cons.mp hx' with hx' | hx'
        · rw [hx']; exact hr r' hr'
        · exact hbound x hx' r' (List.mem_cons_of_mem r hr')

theorem mem_take_cons_20 (a : DemoRun) (l : List DemoRun) : a ∈ (a :: l).take 20 := by
  rw [show (20 : Nat) = 19 + 1 from rfl, List.take_succ_cons]
  exact List.mem_cons_self _ _

theorem saveRun_mem_storedRecords (cfg insertOk : Bool) (st : StoreState)
    (demoId demoTitle : String) (od : OutputData) (p : Payload)
    (mode uuid : String) (now serverNow : Nat) (serverId : String) :
    ∃ r ∈ storedRecords (saveRun cfg insertOk st demoId demoTitle od p mode uuid now serverNow serverId),
      r.output_data = od ∧ r.execution_mode = mode := by
  cases cfg with
  | false =>
      refine ⟨localRunRecord demoId demoTitle od p mode uuid now, ?_, rfl, rfl⟩
      show _ ∈ st.remote ++ (localRunRecord demoId demoTitle od p mode uuid now :: st.localRuns).take 20
      exact List.mem_append_right _ (mem_take_cons_20 _ _)
  | true =>
      cases insertOk with
      | false =>
          refine ⟨localRunRecord demoId demoTitle od p mode uuid now, ?_, rfl, rfl⟩
          show _ ∈ st.remote ++ (localRunRecord demoId demoTitle od p mode uuid now :: st.localRuns).take 20
          exact List.mem_append_right _ (mem_take_cons_20 _ _)
      | true =>
          refine ⟨{ id := serverId, demo_id := demoId, demo_title := demoTitle,
                    input_payload := p, output_data := od, execution_mode := mode,
                    model_used := if od.model_used == "" then CLAUDE_MODEL else od.model_used,
                    created_at := serverNow }, ?_, rfl, rfl⟩
          show _ ∈ (st.remote ++ [_]) ++ st.localRuns
          exact List.mem_append_left _ (List.mem_append_right _ (List.mem_singleton.mpr rfl))

-- ## Claims

/-- Claim C2: for every request to any of the three relay functions, if the
supplied accessPassword is absent or not exactly equal to the configured
DEMO_ACCESS_PASSWORD, the function answers 401 and performs zero model
calls, regardless of whether the required payload field is present: the
authorization check precedes payload validation. -/
theorem claim2_access_gate_rejects (env : RelayEnv) (ap : Option String)
    (infra : Option Json) (el wc : Option String) (qm : Option Json)
    (oracle : Nat → ClaudeOutcome) (resp1 resp2 : FetchResult) (now : Nat)
    (h : ap = none ∨ ap ≠ env.demoAccessPassword) :
    ((multiAgent env ⟨infra, ap⟩ oracle now).status = 401 ∧
      (multiAgent env ⟨infra, ap⟩ oracle now).modelCalls = []) ∧
    ((workflowDiagnostic env ⟨el, wc, ap⟩ resp1 now).status = 401 ∧
      (workflowDiagnostic env ⟨el, wc, ap⟩ resp1 now).modelCalls = []) ∧
    ((releaseReadiness env ⟨qm, ap⟩ resp2 now).status = 401 ∧
      (releaseReadiness env ⟨qm, ap⟩ resp2 now).modelCalls = []) := by
  have hpw := passwordOk_eq_false ap env.demoAccessPassword h
  simp [multiAgent, workflowDiagnostic, releaseReadiness, hpw]

/-- Witness for C2: a wrong password with a valid payload is rejected by all
three functions without a model call. -/
theorem claim2_witness :
    (some "wrong" = none ∨ some "wrong" ≠ (RelayEnv.mk (some "secret") (some "key")).demoAccessPassword) ∧
    (((multiAgent ⟨some "secret", some "key"⟩ ⟨some (.str "infra"), some "wrong"⟩
        (fun _ => .text "x") 0).status = 401 ∧
      (multiAgent ⟨some "secret", some "key"⟩ ⟨some (.str "infra"), some "wrong"⟩
        (fun _ => .text "x") 0).modelCalls = []) ∧
    ((workflowDiagnostic ⟨some "secret", some "key"⟩ ⟨some "log", some "ctx", some "wrong"⟩
        (.success (.str "x")) 0).status = 401 ∧
      (workflowDiagnostic ⟨some "secret", some "key"⟩ ⟨some "log", some "ctx", some "wrong"⟩
        (.success (.str "x")) 0).modelCalls = []) ∧
    ((releaseReadiness ⟨some "secret", some "key"⟩ ⟨some (.str "metrics"), some "wrong"⟩
        (.success (.str "x")) 0).status = 401 ∧
      (releaseReadiness ⟨some "secret", some "key"⟩ ⟨some (.str "metrics"), some "wrong"⟩
        (.success (.str "x")) 0).modelCalls = [])) :=
  ⟨Or.inr (by decide),
   claim2_access_gate_rejects ⟨some "secret", some "key"⟩ (some "wrong")
     (some (.str "infra")) (some "log") (some "ctx") (some (.str "metrics"))
     (fun _ => .text "x") (.success (.str "x")) (.success (.str "x")) 0
     (Or.inr (by decide))⟩

/-- Claim C9: when DEMO_ACCESS_PASSWORD is unset, the relay functions answer
401 for every supplied accessPassword, the empty string included, with zero
model calls: an unconfigured secret never grants access. -/
theorem claim9_unset_secret_rejects_all (env : RelayEnv)
    (henv : env.demoAccessPassword = none) (ap : Option String)
    (infra : Option Json) (el wc : Option String) (qm : Option Json)
    (oracle : Nat → ClaudeOutcome) (resp1 resp2 : FetchResult) (now : Nat) :
    ((multiAgent env ⟨infra, ap⟩ oracle now).status = 401 ∧
      (multiAgent env ⟨infra, ap⟩ oracle now).modelCalls = []) ∧
    ((workflowDiagnostic env ⟨el, wc, ap⟩ resp1 now).status = 401 ∧
      (workflowDiagnostic env ⟨el, wc, ap⟩ resp1 now).modelCalls = []) ∧
    ((releaseReadiness env ⟨qm, ap⟩ resp2 now).status = 401 ∧
      (releaseReadiness env ⟨qm, ap⟩ resp2 now).modelCalls = []) := by
  have hpw := passwordOk_cfg_none ap
  simp [multiAgent, workflowDiagnostic, releaseReadiness, henv, hpw]

/-- Witness for C9: with the secret unset, even the empty-string password is
rejected by all three functions without a model call. -/
theorem claim9_witness :
    (RelayEnv.mk none (some "key")).demoAccessPassword = none ∧
    (((multiAgent ⟨none, some "key"⟩ ⟨some (.str "infra"), some ""⟩
        (fun _ => .text "x") 0).status = 401 ∧
      (multiAgent ⟨none, some "key"⟩ ⟨some (.str "infra"), some ""⟩
        (fun _ => .text "x") 0).modelCalls = []) ∧
    ((workflowDiagnostic ⟨none, some "key"⟩ ⟨some "log", some "ctx", some ""⟩
        (.success (.str "x")) 0).status = 401 ∧
      (workflowDiagnostic ⟨none, some "key"⟩ ⟨some "log", some "ctx", some ""⟩
        (.success (.str "x")) 0).modelCalls = []) ∧
    ((releaseReadiness ⟨none, some "key"⟩ ⟨some (.str "metrics"), some ""⟩
        (.success (.str "x")) 0).status = 401 ∧
      (releaseReadiness ⟨none, some "key"⟩ ⟨some (.str "metrics"), some ""⟩
        (.success (.str "x")) 0).modelCalls = [])) :=
  ⟨rfl,
   claim9_unset_secret_rejects_all ⟨none, some "key"⟩ rfl (some "")
     (some (.str "infra")) (some "log") (some "ctx") (some (.str "metrics"))
     (fun _ => .text "x") (.success (.str "x")) (.success (.str "x")) 0⟩

/-- Claim C8: for each of the four demo identifiers the Prompt Formatter is
deterministic: identical payload gives an identical prompt string. -/
theorem claim8_formatter_deterministic (d : String)
    (_hd : d = "workflow-diagnostic" ∨ d = "release-readiness" ∨
      d = "multi-agent" ∨ d = "developer-portal")
    (p q : Payload) (hpq : p = q) :
    generatePromptForDemo d p = generatePromptForDemo d q := by
  rw [hpq]

/-- Witness for C8 at the workflow-diagnostic identifier and a concrete
payload. -/
theorem claim8_witness :
    (("workflow-diagnostic" = "workflow-diagnostic" ∨
        "workflow-diagnostic" = "release-readiness" ∨
        "workflow-diagnostic" = "multi-agent" ∨
        "workflow-diagnostic" = "developer-portal") ∧ samplePayload = samplePayload) ∧
    generatePromptForDemo "workflow-diagnostic" samplePayload =
      generatePromptForDemo "workflow-diagnostic" samplePayload :=
  ⟨⟨Or.inl rfl, rfl⟩,
   claim8_formatter_deterministic "workflow-diagnostic" (Or.inl rfl)
     samplePayload samplePayload rfl⟩

/-- Claim C10: getLocalRuns is total and yields the empty list for every bad
local-storage state: key absent, a value JSON.parse throws on, or a parsed
value that is not an array. -/
theorem claim10_getLocalRuns_total (slot : StorageSlot)
    (h : slot = .absent ∨ slot = .malformed ∨
      ∃ j, slot = .value j ∧ j.isArr = false) :
    getLocalRuns slot = [] := by
  rcases h with h | h | ⟨j, hj, harr⟩
  · rw [h]; rfl
  · rw [h]; rfl
  · subst hj
    cases j with
    | arr xs => simp [Json.isArr] at harr
    | null => rfl
    | bool b => rfl
    | num n => rfl
    | str s => rfl
    | obj kvs => rfl

/-- Witness for C10 at a parsed non-array value. -/
theorem claim10_witness :
    (StorageSlot.value (.str "not an array") = StorageSlot.absent ∨
      StorageSlot.value (.str "not an array") = StorageSlot.malformed ∨
      ∃ j, StorageSlot.value (.str "not an array") = StorageSlot.value j ∧ j.isArr = false) ∧
    getLocalRuns (StorageSlot.value (.str "not an array")) = [] :=
  ⟨Or.inr (Or.inr ⟨.str "not an array", rfl, rfl⟩),
   claim10_getLocalRuns_total _ (Or.inr (Or.inr ⟨.str "not an array", rfl, rfl⟩))⟩

/-- Claim C3: in the multi-agent relay, if the second (reliability) call
fails, the third (synthesis) call is never made — exactly two prompts were
sent — and the function returns the classified failure as an error body,
never a partial success object. -/
theorem claim3_reliability_failure_aborts (env : RelayEnv) (req : MultiAgentReq)
    (oracle : Nat → ClaudeOutcome) (now : Nat)
    (hpw : passwordOk req.accessPassword env.demoAccessPassword = true)
    (hinfra : jsTruthy (req.infrastructureState.getD .null) = true)
    (hkey : envKeyOk env.anthropicApiKey = true)
    (t0 : String) (h0 : oracle 0 = .text t0)
    (s : Nat) (h1 : oracle 1 = .httpFail s) :
    (multiAgent env req oracle now).modelCalls =
      [costPrompt (stringifyOpt req.infrastructureState),
       reliabilityPrompt t0 (stringifyOpt req.infrastructureState)] ∧
    (multiAgent env req oracle now).status =
      (catchClaudeError ("Claude API error: " ++ toString s)).1 ∧
    (multiAgent env req oracle now).body =
      .errMsg (catchClaudeError ("Claude API error: " ++ toString s)).2 := by
  simp [multiAgent, hpw, hinfra, hkey, h0, h1, callClaude]

/-- Witness for C3: a 429 failure on the reliability call yields a 429 error
response after exactly two model calls. -/
theorem claim3_witness :
    ((fun n => if n = 0 then ClaudeOutcome.text "COST" else ClaudeOutcome.httpFail 429) 1
        = ClaudeOutcome.httpFail 429) ∧
    ((multiAgent ⟨some "pw", some "key"⟩ ⟨some (.str "infra"), some "pw"⟩
        (fun n => if n = 0 then ClaudeOutcome.text "COST" else ClaudeOutcome.httpFail 429) 0).modelCalls =
      [costPrompt (stringifyOpt (some (.str "infra"))),
       reliabilityPrompt "COST" (stringifyOpt (some (.str "infra")))] ∧
    (multiAgent ⟨some "pw", some "key"⟩ ⟨some (.str "infra"), some "pw"⟩
        (fun n => if n = 0 then ClaudeOutcome.text "COST" else ClaudeOutcome.httpFail 429) 0).status =
      (catchClaudeError ("Claude API error: " ++ toString 429)).1 ∧
    (multiAgent ⟨some "pw", some "key"⟩ ⟨some (.str "infra"), some "pw"⟩
        (fun n => if n = 0 then ClaudeOutcome.text "COST" else ClaudeOutcome.httpFail 429) 0).body =
      .errMsg (catchClaudeError ("Claude API error: " ++ toString 429)).2) :=
  ⟨rfl,
   claim3_reliability_failure_aborts ⟨some "pw", some "key"⟩
     ⟨some (.str "infra"), some "pw"⟩
     (fun n => if n = 0 then ClaudeOutcome.text "COST" else ClaudeOutcome.httpFail 429) 0
     (by decide) (by decide) (by decide) "COST" rfl 429 rfl⟩

/-- Claim C6: the multi-agent success path performs exactly three model
calls in order — cost analysis, reliability, synthesis — with the
reliability prompt containing the cost output and the synthesis prompt
containing both prior outputs, and the success body carries cost_analysis,
reliability_assessment, final_recommendation, timestamp and model_used. -/
theorem claim6_multi_agent_success_chain (env : RelayEnv) (req : MultiAgentReq)
    (oracle : Nat → ClaudeOutcome) (now : Nat)
    (hpw : passwordOk req.accessPassword env.demoAccessPassword = true)
    (hinfra : jsTruthy (req.infrastructureState.getD .null) = true)
    (hkey : envKeyOk env.anthropicApiKey = true)
    (t0 t1 t2 : String) (h0 : oracle 0 = .text t0) (h1 : oracle 1 = .text t1)
    (h2 : oracle 2 = .text t2) :
    (multiAgent env req oracle now).modelCalls =
      [costPrompt (stringifyOpt req.infrastructureState),
       reliabilityPrompt t0 (stringifyOpt req.infrastructureState),
       synthesisPrompt t0 t1] ∧
    StrContains (reliabilityPrompt t0 (stringifyOpt req.infrastructureState)) t0 ∧
    StrContains (synthesisPrompt t0 t1) t0 ∧
    StrContains (synthesisPrompt t0 t1) t1 ∧
    (multiAgent env req oracle now).status = 200 ∧
    (multiAgent env req oracle now).body =
      .multiAgentSuccess t0 t1 t2 now "claude-sonnet-4-20250514" := by
  refine ⟨?_, ?_, ?_, ?_, ?_, ?_⟩
  · simp [multiAgent, hpw, hinfra, hkey, h0, h1, h2, callClaude]
  · exact strContains_right _ t0 _
  · exact strContains_right _ t0 _
  · exact strContains_prepend _ (strContains_prepend t0 (strContains_prepend _ (strContains_right "" t1 _)))
  · simp [multiAgent, hpw, hinfra, hkey, h0, h1, h2, callClaude]
  · simp [multiAgent, hpw, hinfra, hkey, h0, h1, h2, callClaude]

/-- Witness for C6: three successful calls produce the chained prompts and
the full success object. -/
theorem claim6_witness :
    ((fun n => if n = 0 then ClaudeOutcome.text "COST" else
        if n = 1 then ClaudeOutcome.text "RELIABILITY" else ClaudeOutcome.text "FINAL") 2
      = ClaudeOutcome.text "FINAL") ∧
    ((multiAgent ⟨some "pw", some "key"⟩ ⟨some (.str "infra"), some "pw"⟩
        (fun n => if n = 0 then ClaudeOutcome.text "COST" else
          if n = 1 then ClaudeOutcome.text "RELIABILITY" else ClaudeOutcome.text "FINAL") 7).modelCalls =
      [costPrompt (stringifyOpt (some (.str "infra"))),
       reliabilityPrompt "COST" (stringifyOpt (some (.str "infra"))),
       synthesisPrompt "COST" "RELIABILITY"] ∧
    StrContains (reliabilityPrompt "COST" (stringifyOpt (some (.str "infra")))) "COST" ∧
    StrContains (synthesisPrompt "COST" "RELIABILITY") "COST" ∧
    StrContains (synthesisPrompt "COST" "RELIABILITY") "RELIABILITY" ∧
    (multiAgent ⟨some "pw", some "key"⟩ ⟨some (.str "infra"), some "pw"⟩
        (fun n => if n = 0 then ClaudeOutcome.text "COST" else
          if n = 1 then ClaudeOutcome.text "RELIABILITY" else ClaudeOutcome.text "FINAL") 7).status = 200 ∧
    (multiAgent ⟨some "pw", some "key"⟩ ⟨some (.str "infra"), some "pw"⟩
        (fun n => if n = 0 then ClaudeOutcome.text "COST" else
          if n = 1 then ClaudeOutcome.text "RELIABILITY" else ClaudeOutcome.text "FINAL") 7).body =
      .multiAgentSuccess "COST" "RELIABILITY" "FINAL" 7 "claude-sonnet-4-20250514") :=
  ⟨rfl,
   claim6_multi_agent_success_chain ⟨some "pw", some "key"⟩
     ⟨some (.str "infra"), some "pw"⟩
     (fun n => if n = 0 then ClaudeOutcome.text "COST" else
       if n = 1 then ClaudeOutcome.text "RELIABILITY" else ClaudeOutcome.text "FINAL") 7
     (by decide) (by decide) (by decide) "COST" "RELIABILITY" "FINAL" rfl rfl rfl⟩

/-- Claim C5: with an API key configured, a non-2xx reply (a 429 surfacing
as the rate-limit outcome in particular) and a thrown network error leave
the Run Store untouched, while a 2xx reply hands the extracted result to
saveRun for persistence: exactly the successful calls are persisted. -/
theorem claim5_persist_exactly_successful (cfg insertOk : Bool) (st : StoreState)
    (apiKey demoId demoTitle : String) (p : Payload) (uuid : String)
    (now serverNow : Nat) (serverId : String) (hkey : apiKey ≠ "") :
    (∀ status text,
      (runDemo cfg insertOk st apiKey demoId demoTitle p (.httpError status text)
        uuid now serverNow serverId).1 = st) ∧
    (∀ text,
      (runDemo cfg insertOk st apiKey demoId demoTitle p (.httpError 429 text)
        uuid now serverNow serverId).2 = .rateLimited) ∧
    (∀ msg,
      (runDemo cfg insertOk st apiKey demoId demoTitle p (.networkError msg)
        uuid now serverNow serverId).1 = st) ∧
    (∀ body, ∃ r ∈ storedRecords
        (runDemo cfg insertOk st apiKey demoId demoTitle p (.success body)
          uuid now serverNow serverId).1,
      r.output_data = { result := jsOr (contentText body) (.str "No response generated"),
                        model_used := CLAUDE_MODEL, timestamp := now } ∧
      r.execution_mode = "local") := by
  have hk : (apiKey == "") = false := beq_eq_false_iff_ne.mpr hkey
  refine ⟨?_, ?_, ?_, ?_⟩
  · intro status text
    simp only [runDemo, hk, Bool.false_eq_true, if_false]
    split
    · rfl
    · split <;> rfl
  · intro text
    simp [runDemo, hk]
  · intro msg
    simp only [runDemo, hk, Bool.false_eq_true, if_false]
    split <;> rfl
  · intro body
    simp only [runDemo, hk, Bool.false_eq_true, if_false]
    exact saveRun_mem_storedRecords cfg insertOk st demoId demoTitle
      { result := jsOr (contentText body) (.str "No response generated"),
        model_used := CLAUDE_MODEL, timestamp := now } p "local" uuid now serverNow serverId

/-- Witness for C5 at a concrete key, state, 429 reply and success reply. -/
theorem claim5_witness :
    "k" ≠ "" ∧
    ((∀ status text,
      (runDemo false true ⟨[], []⟩ "k" "workflow-diagnostic" "Workflow Diagnostic"
        samplePayload (.httpError status text) "u" 3 4 "srv").1 = ⟨[], []⟩) ∧
    (∀ text,
      (runDemo false true ⟨[], []⟩ "k" "workflow-diagnostic" "Workflow Diagnostic"
        samplePayload (.httpError 429 text) "u" 3 4 "srv").2 = .rateLimited) ∧
    (∀ msg,
      (runDemo false true ⟨[], []⟩ "k" "workflow-diagnostic" "Workflow Diagnostic"
        samplePayload (.networkError msg) "u" 3 4 "srv").1 = ⟨[], []⟩) ∧
    (∀ body, ∃ r ∈ storedRecords
        (runDemo false true ⟨[], []⟩ "k" "workflow-diagnostic" "Workflow Diagnostic"
          samplePayload (.success body) "u" 3 4 "srv").1,
      r.output_data = { result := jsOr (contentText body) (.str "No response generated"),
                        model_used := CLAUDE_MODEL, timestamp := 3 } ∧
      r.execution_mode = "local")) :=
  ⟨by decide,
   claim5_persist_exactly_successful false true ⟨[], []⟩ "k" "workflow-diagnostic"
     "Workflow Diagnostic" samplePayload "u" 3 4 "srv" (by decide)⟩

/-- Counterexample to C7 as stated: for the success body with text "", the
gateway does not yield "" — the falsy-string fallback substitutes
"No response generated". -/
theorem claim7_counterexample :
    (runDemo false true ⟨[], []⟩ "k" "workflow-diagnostic" "Workflow Diagnostic"
      samplePayload (.success (.obj [("content", .arr [.obj [("text", .str "")]])]))
      "u" 0 0 "srv").2 = .completed (.str "No response generated") ∧
    "No response generated" ≠ "" :=
  ⟨rfl, by decide⟩

/-- Claim C7 (amended: the extracted reply equals the body text `s` when `s`
is nonempty; for `s = ""` the code substitutes "No response generated"): the
workflow-diagnostic prompt contains errorLog and workflowContext verbatim,
and on a success body the gateway yields `s` and persists a record with that
result and with execution_mode "local", the transport used. -/
theorem claim7_scenario_a (p : Payload) (e w : String)
    (he : p.errorLog = some e) (hw : p.workflowContext = some w)
    (s : String) (hs : s ≠ "") (cfg insertOk : Bool) (st : StoreState)
    (apiKey demoTitle uuid : String) (now serverNow : Nat) (serverId : String)
    (hkey : apiKey ≠ "") :
    StrContains (generatePromptForDemo "workflow-diagnostic" p) e ∧
    StrContains (generatePromptForDemo "workflow-diagnostic" p) w ∧
    (runDemo cfg insertOk st apiKey "workflow-diagnostic" demoTitle p
      (.success (.obj [("content", .arr [.obj [("text", .str s)]])]))
      uuid now serverNow serverId).2 = .completed (.str s) ∧
    ∃ r ∈ storedRecords (runDemo cfg insertOk st apiKey "workflow-diagnostic" demoTitle p
        (.success (.obj [("content", .arr [.obj [("text", .str s)]])]))
        uuid now serverNow serverId).1,
      r.output_data.result = .str s ∧ r.execution_mode = "local" := by
  have hk : (apiKey == "") = false := beq_eq_false_iff_ne.mpr hkey
  have hsb : (s == "") = false := beq_eq_false_iff_ne.mpr hs
  have hres : jsOr (contentText (.obj [("content", .arr [.obj [("text", .str s)]])]))
      (.str "No response generated") = .str s := by
    simp [contentText, Json.getField, jsOr, jsTruthy, hsb]
    intro h
    exact absurd h hs
  refine ⟨?_, ?_, ?_, ?_⟩
  · simp only [generatePromptForDemo, he, hw, interpolateOpt]
    exact strContains_right _ e _
  · simp only [generatePromptForDemo, he, hw, interpolateOpt]
    exact strContains_prepend _ (strContains_prepend e (strContains_right _ w _))
  · simp only [runDemo, hk, Bool.false_eq_true, if_false, hres]
  · simp only [runDemo, hk, Bool.false_eq_true, if_false, hres]
    obtain ⟨r, hr, hout, hmode⟩ := saveRun_mem_storedRecords cfg insertOk st
      "workflow-diagnostic" demoTitle
      { result := .str s, model_used := CLAUDE_MODEL, timestamp := now } p "local"
      uuid now serverNow serverId
    exact ⟨r, hr, by rw [hout], hmode⟩

/-- Witness for C7 with both payload fields present and a nonempty reply. -/
theorem claim7_witness :
    (samplePayload.errorLog = some "BucketAlreadyExists: the requested bucket name is not available" ∧
      samplePayload.workflowContext = some "Repository: infra/terraform, branch main, apply stage" ∧
      "Root cause: duplicate bucket name" ≠ "" ∧ "k" ≠ "") ∧
    (StrContains (generatePromptForDemo "workflow-diagnostic" samplePayload)
        "BucketAlreadyExists: the requested bucket name is not available" ∧
    StrContains (generatePromptForDemo "workflow-diagnostic" samplePayload)
        "Repository: infra/terraform, branch main, apply stage" ∧
    (runDemo false true ⟨[], []⟩ "k" "workflow-diagnostic" "Workflow Diagnostic" samplePayload
      (.success (.obj [("content", .arr [.obj [("text", .str "Root cause: duplicate bucket name")]])]))
      "u" 0 0 "srv").2 = .completed (.str "Root cause: duplicate bucket name") ∧
    ∃ r ∈ storedRecords (runDemo false true ⟨[], []⟩ "k" "workflow-diagnostic" "Workflow Diagnostic"
        samplePayload
        (.success (.obj [("content", .arr [.obj [("text", .str "Root cause: duplicate bucket name")]])]))
        "u" 0 0 "srv").1,
      r.output_data.result = .str "Root cause: duplicate bucket name" ∧
      r.execution_mode = "local") :=
  ⟨⟨rfl, rfl, by decide, by decide⟩,
   claim7_scenario_a samplePayload
     "BucketAlreadyExists: the requested bucket name is not available"
     "Repository: infra/terraform, branch main, apply stage" rfl rfl
     "Root cause: duplicate bucket name" (by decide) false true ⟨[], []⟩
     "k" "Workflow Diagnostic" "u" 0 0 "srv" (by decide)⟩

/-- Counterexample to C1 as stated: after a failed remote insert the run
sits in the on-device fallback list, but a subsequent list call whose
remote query succeeds returns the remote rows — here the empty table — and
does not include the just-attempted run; the code never reconciles the two
stores. -/
theorem claim1_counterexample :
    localRunRecord "workflow-diagnostic" "Workflow Diagnostic" sampleOutput samplePayload
        "local" "u1" 5 ∈
      (saveRun true false ⟨[], []⟩ "workflow-diagnostic" "Workflow Diagnostic" sampleOutput
        samplePayload "local" "u1" 5 6 "srv").localRuns ∧
    loadPreviousRuns true true
      (saveRun true false ⟨[], []⟩ "workflow-diagnostic" "Workflow Diagnostic" sampleOutput
        samplePayload "local" "u1" 5 6 "srv") "workflow-diagnostic" = [] :=
  ⟨mem_take_cons_20 _ _, rfl⟩

/-- Claim C1 (amended: the run survives only on the fallback read path —
after a failed remote insert, a subsequent list call that itself falls back
to the on-device store, because its remote query fails, includes the
just-attempted run; a list call whose remote query succeeds does not
consult the fallback store and can omit the run). -/
theorem claim1_fallback_list_includes_run (st : StoreState)
    (demoId demoTitle : String) (od : OutputData) (p : Payload)
    (mode uuid : String) (now serverNow : Nat) (serverId : String) :
    localRunRecord demoId demoTitle od p mode uuid now ∈
      loadPreviousRuns true false
        (saveRun true false st demoId demoTitle od p mode uuid now serverNow serverId)
        demoId := by
  show localRunRecord demoId demoTitle od p mode uuid now ∈
    (localRunRecord demoId demoTitle od p mode uuid now :: st.localRuns).take 20
  exact mem_take_cons_20 _ _

/-- Counterexample to C4 as stated: two runs saved in the same millisecond
(equal created_at, as the wall clock can produce) make the listed history
tied, not strictly descending. -/
theorem claim4_counterexample :
    ¬ StrictSortedDescRuns (loadPreviousRuns false true
      (saveRun false true
        (saveRun false true ⟨[], []⟩ "workflow-diagnostic" "Workflow Diagnostic"
          sampleOutput samplePayload "local" "u1" 5 0 "")
        "workflow-diagnostic" "Workflow Diagnostic" sampleOutput samplePayload
        "local" "u2" 5 0 "")
      "workflow-diagnostic") := by
  intro h
  have h2 := List.rel_of_pairwise_cons h (List.mem_cons_self _ _)
  simp [localRunRecord] at h2

/-- Claim C4 (amended: at most 20 records always; the ordering is
non-strictly descending by created_at — ties are possible — and on the
on-device fallback path it holds provided successive save timestamps are
non-decreasing, since the local list only prepends): the remote query path
is bounded and sorted for every table, and the local path is bounded and
sorted for every save sequence with non-decreasing timestamps. -/
theorem claim4_list_bounded_and_sorted (st : StoreState) (demoId : String)
    (runs : List DemoRun) (queryOk : Bool)
    (hruns : runs.Pairwise (fun a b => a.created_at ≤ b.created_at)) :
    ((loadPreviousRuns true true st demoId).length ≤ 20 ∧
      SortedDescRuns (loadPreviousRuns true true st demoId)) ∧
    ((loadPreviousRuns false queryOk (saveLocalSeq ⟨[], []⟩ runs) demoId).length ≤ 20 ∧
      SortedDescRuns (loadPreviousRuns false queryOk (saveLocalSeq ⟨[], []⟩ runs) demoId)) := by
  have hremote : loadPreviousRuns true true st demoId = listRemoteRuns st.remote demoId := rfl
  have hlocal : loadPreviousRuns false queryOk (saveLocalSeq ⟨[], []⟩ runs) demoId =
      (saveLocalSeq ⟨[], []⟩ runs).localRuns := rfl
  refine ⟨⟨?_, ?_⟩, ?_, ?_⟩
  · rw [hremote]
    exact List.length_take_le 20 _
  · rw [hremote]
    exact List.Pairwise.sublist (List.take_sublist 20 _)
      (List.sorted_insertionSort createdDescRel _)
  · rw [hlocal]
    exact length_saveLocalSeq_le runs ⟨[], []⟩ (by simp)
  · rw [hlocal]
    exact sorted_saveLocalSeq runs ⟨[], []⟩ hruns List.Pairwise.nil (by simp)

/-- Witness for C4 at a concrete table and a concrete non-decreasing save
sequence. -/
theorem claim4_witness :
    List.Pairwise (fun a b : DemoRun => a.created_at ≤ b.created_at)
      [localRunRecord "workflow-diagnostic" "Workflow Diagnostic" sampleOutput samplePayload
        "local" "u1" 1,
       localRunRecord "workflow-diagnostic" "Workflow Diagnostic" sampleOutput samplePayload
        "local" "u2" 2] ∧
    (((loadPreviousRuns true true ⟨[], []⟩ "workflow-diagnostic").length ≤ 20 ∧
      SortedDescRuns (loadPreviousRuns true true ⟨[], []⟩ "workflow-diagnostic")) ∧
    ((loadPreviousRuns false true
        (saveLocalSeq ⟨[], []⟩
          [localRunRecord "workflow-diagnostic" "Workflow Diagnostic" sampleOutput samplePayload
            "local" "u1" 1,
           localRunRecord "workflow-diagnostic" "Workflow Diagnostic" sampleOutput samplePayload
            "local" "u2" 2])
        "workflow-diagnostic").length ≤ 20 ∧
      SortedDescRuns (loadPreviousRuns false true
        (saveLocalSeq ⟨[], []⟩
          [localRunRecord "workflow-diagnostic" "Workflow Diagnostic" sampleOutput samplePayload
            "local" "u1" 1,
           localRunRecord "workflow-diagnostic" "Workflow Diagnostic" sampleOutput samplePayload
            "local" "u2" 2])
        "workflow-diagnostic"))) :=
  ⟨by simp [localRunRecord],
   claim4_list_bounded_and_sorted ⟨[], []⟩ "workflow-diagnostic" _ true
     (by simp [localRunRecord])⟩
